import Mathlib

/-!
Verification of the express sort service (src/index.js) against its
natural-language specification.

Modelling choices:
- JSON values are the inductive `JSVal`.  JSON numbers are modelled by `Int`:
  every integer is a finite JS number whose JS `ToString` is its decimal
  representation, which is the faithful sub-domain needed by all claims here.
- The schema module `src/sort.body.schema.js` is not among the sources; it is
  modelled from the spec (see `numsOf` / `BodySchema_parse`).
- `req.body.sort()` in the handler is the comparator-less, in-place
  `Array.prototype.sort`, which per ECMA-262 orders elements by their string
  conversion, compared code-unit-wise (`strLt`, `jsDefaultSort`).
- `res.sendStatus(400)` per the express API sets the status code and sends the
  registered status message, the text "Bad Request", as the response body.
-/

namespace TestingExample

/-- JSON values as produced by the `express.json()` body parser.  Numbers are
modelled by `Int` (finite, with decimal `ToString`). -/
inductive JSVal where
  | jNull : JSVal
  | jBool : Bool → JSVal
  | jNum : Int → JSVal
  | jStr : String → JSVal
  | jArr : List JSVal → JSVal
  | jObj : List (String × JSVal) → JSVal

/-- Modelled from the spec: element pass of the Schema Validator of the missing
file src/sort.body.schema.js presented in the spec §4.1 and the README as
z.array(z.number()).  Each element must individually be numeric; any
non-numeric element (string, object, boolean, null, nested array) invalidates
the whole input; on success the numbers are yielded in their original order
and multiplicity, with no coercion. -/
def numsOf : List JSVal → Option (List Int)
  | [] => some []
  | JSVal.jNum n :: rest => (numsOf rest).map (fun t => n :: t)
  | _ => none

/-- Modelled from the spec: `BodySchema.parse` of the missing file
src/sort.body.schema.js (spec §4.1): accepts only a top-level array whose
elements are all numbers, and yields the typed sequence; every other
top-level value (object, string, number, boolean, null) is rejected. -/
def BodySchema_parse : JSVal → Option (List Int)
  | JSVal.jArr es => numsOf es
  | _ => none

/-- JS `ToString` applied to an integral number: its decimal representation,
which coincides with the Lean `toString` on `Int`. -/
def jsNumToString (n : Int) : String := toString n

/-- Code-unit-wise string order: the order used by the default comparator of
`Array.prototype.sort` (ECMA-262 SortCompare with comparefn undefined). -/
def strLt : List Char → List Char → Bool
  | [], [] => false
  | [], _ :: _ => true
  | _ :: _, [] => false
  | a :: as, b :: bs =>
      if a.toNat < b.toNat then true
      else if b.toNat < a.toNat then false
      else strLt as bs

/-- The default-sort preorder on numbers: x sorts no later than y when the
decimal string of y is not strictly below the decimal string of x. -/
def jsNumLe (a b : Int) : Bool :=
  ! strLt (jsNumToString b).data (jsNumToString a).data

/-- Insertion step of the comparator-less sort. -/
def insertJS (x : Int) : List Int → List Int
  | [] => [x]
  | y :: ys => if jsNumLe x y then x :: y :: ys else y :: insertJS x ys

/-- `Array.prototype.sort()` with no comparator, on an all-number array:
sorts the elements by their decimal strings in code-unit order. -/
def jsDefaultSort : List Int → List Int
  | [] => []
  | x :: xs => insertJS x (jsDefaultSort xs)

/-- Modelled from the spec §4.2 and the README: the intended ascending numeric
sort with comparator a - b semantics.  Kept separate from `jsDefaultSort` so
the code order and the specified order can be compared. -/
def insertNum (x : Int) : List Int → List Int
  | [] => [x]
  | y :: ys => if x ≤ y then x :: y :: ys else y :: insertNum x ys

/-- Modelled from the spec §4.2: ascending numeric sort (comparator a - b). -/
def numericSort : List Int → List Int
  | [] => []
  | x :: xs => insertNum x (numericSort xs)

/-- An HTTP response as emitted by the handlers: status code, optional JSON
payload (res.json), and the plain text body (empty unless sendStatus wrote the
status message). -/
structure Response where
  status : Nat
  jsonBody : Option JSVal
  textBody : String

/-- `res.json(v)`: 200 with JSON payload v. -/
def resJson (v : JSVal) : Response :=
  { status := 200, jsonBody := some v, textBody := "" }

/-- `res.sendStatus(400)`: express sets status 400 and sends the registered
status message "Bad Request" as the text response body; no JSON payload. -/
def resSendStatus400 : Response :=
  { status := 400, jsonBody := none, textBody := "Bad Request" }

/-- Outcome of one POST /sort request: the response, and the value of
`req.body` once the handler has returned (the in-place sort can change it). -/
structure HandlerResult where
  resp : Response
  finalBody : JSVal

/-- The POST /sort handler of src/index.js lines 17-24:
try { BodySchema.parse(req.body); res.json(req.body.sort()); }
catch (err) { res.sendStatus(400); }.
When the parse succeeds the body is exactly an array of numbers (theorem
`BodySchema_parse_shape` below), so `req.body.sort()` — the comparator-less,
in-place sort — is modelled by `jsDefaultSort` on the extracted numbers;
`finalBody` is the mutated `req.body`.  A parse failure throws, is caught, and
answers `res.sendStatus(400)` with `req.body` untouched. -/
def handleSort (body : JSVal) : HandlerResult :=
  match BodySchema_parse body with
  | some xs =>
      let sorted := JSVal.jArr ((jsDefaultSort xs).map JSVal.jNum)
      { resp := resJson sorted, finalBody := sorted }
  | none => { resp := resSendStatus400, finalBody := body }

/-- An inbound GET request; the static handlers ignore it entirely. -/
structure Request where
  body : JSVal

/-- The GET / handler of src/index.js lines 9-11:
res.json({ message: "Hello, World!" }). -/
def rootHandler (_req : Request) : Response :=
  resJson (JSVal.jObj [("message", JSVal.jStr "Hello, World!")])

/-- The GET /health handler of src/index.js lines 13-15:
res.json({ status: "ok" }). -/
def healthHandler (_req : Request) : Response :=
  resJson (JSVal.jObj [("status", JSVal.jStr "ok")])

/-- A successful parse forces the exact shape of the body: it is the array of
precisely the yielded numbers, in order. -/
theorem numsOf_shape (es : List JSVal) (xs : List Int)
    (h : numsOf es = some xs) : es = xs.map JSVal.jNum := by
  induction es generalizing xs with
  | nil =>
      simp [numsOf] at h
      simp [← h]
  | cons e rest ih =>
      cases e with
      | jNum n =>
          simp only [numsOf] at h
          cases hr : numsOf rest with
          | none => rw [hr] at h; simp at h
          | some t =>
              rw [hr] at h
              simp only [Option.map_some', Option.some.injEq] at h
              subst h
              simp [ih t hr]
      | jNull => simp [numsOf] at h
      | jBool b => simp [numsOf] at h
      | jStr s => simp [numsOf] at h
      | jArr l => simp [numsOf] at h
      | jObj l => simp [numsOf] at h

/-- A successful `BodySchema.parse` forces the body to be the array of the
yielded numbers. -/
theorem BodySchema_parse_shape (body : JSVal) (xs : List Int)
    (h : BodySchema_parse body = some xs) :
    body = JSVal.jArr (xs.map JSVal.jNum) := by
  cases body with
  | jArr es => simp [BodySchema_parse] at h; simp [numsOf_shape es xs h]
  | jNull => simp [BodySchema_parse] at h
  | jBool b => simp [BodySchema_parse] at h
  | jNum n => simp [BodySchema_parse] at h
  | jStr s => simp [BodySchema_parse] at h
  | jObj l => simp [BodySchema_parse] at h

/-- One non-numeric element anywhere in the list makes the element pass fail. -/
theorem numsOf_eq_none_of_bad (es : List JSVal) (e : JSVal) (he : e ∈ es)
    (hbad : ∀ n : Int, e ≠ JSVal.jNum n) : numsOf es = none := by
  induction es with
  | nil => cases he
  | cons x rest ih =>
      cases List.mem_cons.mp he with
      | inl hx =>
          subst hx
          cases e with
          | jNum n => exact absurd rfl (hbad n)
          | jNull => rfl
          | jBool b => rfl
          | jStr s => rfl
          | jArr l => rfl
          | jObj l => rfl
      | inr hr =>
          cases x with
          | jNum n => simp [numsOf, ih hr]
          | jNull => rfl
          | jBool b => rfl
          | jStr s => rfl
          | jArr l => rfl
          | jObj l => rfl

/-- Claim C1: for every valid array of finite numbers, POST /sort is claimed to
return 200 with the input sorted ascending by numeric value (comparator a - b).
The code violates this: `req.body.sort()` has no comparator, so at the valid
input [10, 2] the handler answers 200 with body [10, 2] (the decimal strings
"10" < "2" in code-unit order), while the ascending numeric order is [2, 10]. -/
theorem c1_sort_is_lexicographic_not_numeric :
    BodySchema_parse (JSVal.jArr [JSVal.jNum 10, JSVal.jNum 2]) = some [10, 2] ∧
    (handleSort (JSVal.jArr [JSVal.jNum 10, JSVal.jNum 2])).resp.status = 200 ∧
    (handleSort (JSVal.jArr [JSVal.jNum 10, JSVal.jNum 2])).resp.jsonBody
      = some (JSVal.jArr [JSVal.jNum 10, JSVal.jNum 2]) ∧
    numericSort [10, 2] = [2, 10] :=
  ⟨rfl, rfl, rfl, rfl⟩

/-- Claim C2: the handler is claimed never to mutate the caller-supplied input
sequence.  The code violates this: `Array.prototype.sort` sorts in place, so
after handling the valid input [2, 1] the request body holds [1, 2], not the
original sequence. -/
theorem c2_handler_mutates_input :
    (handleSort (JSVal.jArr [JSVal.jNum 2, JSVal.jNum 1])).finalBody
      = JSVal.jArr [JSVal.jNum 1, JSVal.jNum 2] ∧
    JSVal.jArr [JSVal.jNum 1, JSVal.jNum 2] ≠ JSVal.jArr [JSVal.jNum 2, JSVal.jNum 1] :=
  ⟨rfl, by simp⟩

/-- Claim C3: every invalid input — a non-array top-level value, or an array
with at least one non-numeric element in any position — is answered with
status 400 (the thrown validation error is caught by the handler). -/
theorem c3_invalid_input_gets_400 (body : JSVal)
    (h : (∀ es, body ≠ JSVal.jArr es) ∨
      ∃ es, body = JSVal.jArr es ∧ ∃ e ∈ es, ∀ n : Int, e ≠ JSVal.jNum n) :
    (handleSort body).resp.status = 400 := by
  have hp : BodySchema_parse body = none := by
    cases h with
    | inl hna =>
        cases body with
        | jArr es => exact absurd rfl (hna es)
        | jNull => rfl
        | jBool b => rfl
        | jNum n => rfl
        | jStr s => rfl
        | jObj l => rfl
    | inr hex =>
        obtain ⟨es, rfl, e, he, hbad⟩ := hex
        simp [BodySchema_parse, numsOf_eq_none_of_bad es e he hbad]
  unfold handleSort
  rw [hp]
  rfl

/-- Claim C3 witness: the non-array body null is answered with 400. -/
theorem c3_witness : (handleSort JSVal.jNull).resp.status = 400 :=
  c3_invalid_input_gets_400 JSVal.jNull (Or.inl (fun _ h => JSVal.noConfusion h))

/-- Claim C4 counterexample: the 400 response is claimed to carry an empty
response body, but `res.sendStatus(400)` sends the registered status message
as the text body, so at the invalid input "oops" the 400 response body is the
non-empty text "Bad Request". -/
theorem c4_counterexample :
    (handleSort (JSVal.jStr "oops")).resp.status = 400 ∧
    (handleSort (JSVal.jStr "oops")).resp.textBody ≠ "" :=
  ⟨rfl, by decide⟩

/-- Claim C4 as amended: on every validation failure the response is the
constant 400 with no JSON payload and the fixed status text "Bad Request" —
independent of the input and of the error, so no error detail is leaked —
but its body is the status text rather than strictly empty. -/
theorem c4_failure_response_constant (body : JSVal)
    (h : BodySchema_parse body = none) :
    (handleSort body).resp
      = { status := 400, jsonBody := none, textBody := "Bad Request" } := by
  unfold handleSort
  rw [h]
  rfl

/-- Claim C4 witness: the invalid input true gets the constant 400 response. -/
theorem c4_witness :
    (handleSort (JSVal.jBool true)).resp
      = { status := 400, jsonBody := none, textBody := "Bad Request" } :=
  c4_failure_response_constant (JSVal.jBool true) rfl

/-- Claim C5: sorting an array already sorted ascending by numeric value is
claimed to return the same sequence.  The code violates this: [2, 10] is
numerically sorted, yet the handler answers with [10, 2], because the
comparator-less sort orders by decimal strings. -/
theorem c5_resort_changes_numerically_sorted_input :
    numericSort [2, 10] = [2, 10] ∧
    (handleSort (JSVal.jArr [JSVal.jNum 2, JSVal.jNum 10])).resp.jsonBody
      = some (JSVal.jArr [JSVal.jNum 10, JSVal.jNum 2]) ∧
    JSVal.jArr [JSVal.jNum 10, JSVal.jNum 2] ≠ JSVal.jArr [JSVal.jNum 2, JSVal.jNum 10] :=
  ⟨rfl, rfl, by simp⟩

/-- Claim C6: every sequence the Schema Validator accepts is exactly the array
of its yielded numbers — only numeric values, in their original order and
multiplicity, with no coercion; in particular the numeric string "5" is
rejected, not converted. -/
theorem c6_accepted_bodies_are_exactly_numbers (body : JSVal) (xs : List Int)
    (h : BodySchema_parse body = some xs) :
    body = JSVal.jArr (xs.map JSVal.jNum) ∧
    BodySchema_parse (JSVal.jArr [JSVal.jStr "5"]) = none :=
  ⟨BodySchema_parse_shape body xs h, rfl⟩

/-- Claim C6 witness: the accepted body [3, 1] is exactly the array of the
yielded numbers 3, 1, and the numeric string "5" is rejected. -/
theorem c6_witness :
    JSVal.jArr [JSVal.jNum 3, JSVal.jNum 1]
      = JSVal.jArr (([3, 1] : List Int).map JSVal.jNum) ∧
    BodySchema_parse (JSVal.jArr [JSVal.jStr "5"]) = none :=
  c6_accepted_bodies_are_exactly_numbers
    (JSVal.jArr [JSVal.jNum 3, JSVal.jNum 1]) [3, 1] rfl

/-- Claim C7: the empty array is a valid input: the handler accepts it and
answers 200 with body []. -/
theorem c7_empty_array_accepted :
    (handleSort (JSVal.jArr [])).resp.status = 200 ∧
    (handleSort (JSVal.jArr [])).resp.jsonBody = some (JSVal.jArr []) :=
  ⟨rfl, rfl⟩

/-- Claim C8: the static responders are constant: every GET / request is
answered 200 with JSON body message Hello, World! and every GET /health
request is answered 200 with JSON body status ok, whatever the request. -/
theorem c8_static_responders_constant (req : Request) :
    rootHandler req
      = { status := 200,
          jsonBody := some (JSVal.jObj [("message", JSVal.jStr "Hello, World!")]),
          textBody := "" } ∧
    healthHandler req
      = { status := 200,
          jsonBody := some (JSVal.jObj [("status", JSVal.jStr "ok")]),
          textBody := "" } :=
  ⟨rfl, rfl⟩

/-- Claim C9: for every request body the POST /sort handler answers exactly
one of the statuses 200 or 400: the whole handler body is inside try/catch,
so every validation fault is mapped to 400 and nothing escapes as 500. -/
theorem c9_status_is_200_or_400 (body : JSVal) :
    (handleSort body).resp.status = 200 ∨ (handleSort body).resp.status = 400 := by
  cases h : BodySchema_parse body with
  | some xs => exact Or.inl (by simp [handleSort, h, resJson])
  | none => exact Or.inr (by simp [handleSort, h, resSendStatus400])

/-- Claim C10: the handler is atomic on failure: when validation fails, the
request body is never sorted or modified, because the sort runs only after
the parse has succeeded. -/
theorem c10_failure_leaves_body_untouched (body : JSVal)
    (h : BodySchema_parse body = none) :
    (handleSort body).finalBody = body ∧ (handleSort body).resp.status = 400 := by
  unfold handleSort
  rw [h]
  exact ⟨rfl, rfl⟩

/-- Claim C10 witness: the invalid object body with field foo is left
untouched and answered 400. -/
theorem c10_witness :
    (handleSort (JSVal.jObj [("foo", JSVal.jStr "bar")])).finalBody
      = JSVal.jObj [("foo", JSVal.jStr "bar")] ∧
    (handleSort (JSVal.jObj [("foo", JSVal.jStr "bar")])).resp.status = 400 :=
  c10_failure_leaves_body_untouched (JSVal.jObj [("foo", JSVal.jStr "bar")]) rfl

end TestingExample
